import Mathlib

/-!
Verification of the pumpfun-listener repository.

This file shallowly embeds the parts of the program that the claims are
about: the transaction fetcher with version-negotiation retries
(src/listener_helpers.rs), the log classifier and creation parser
(src/listeners/pumpfun.rs), and the mint decoder and metadata lookup
(src/token_helper.rs).  External effects (RPC calls, HTTP calls, the clock)
are modelled as explicit oracle values passed in; machine integers are Nat
with explicit bounds where they matter; fallible code returns Except or
Option.
-/

namespace PumpFun

/- ## Strings and substring search

Rust's str::contains(pat) is plain substring containment.  We model strings
by their character lists. -/

/-- Does the list start with the given pattern?  (Rust str prefix test.) -/
def listStartsWith : List Char → List Char → Bool
  | [], _ => true
  | _ :: _, [] => false
  | p :: ps, x :: xs => p = x && listStartsWith ps xs

/-- Does the pattern occur as a contiguous sublist?  (Rust str::contains.) -/
def listContainsSub (pat : List Char) : List Char → Bool
  | [] => listStartsWith pat []
  | x :: xs => listStartsWith pat (x :: xs) || listContainsSub pat xs

/-- Models Rust `hay.contains(pat)` as `strContains hay pat`. -/
def strContains (hay pat : String) : Bool :=
  listContainsSub pat.toList hay.toList

theorem listStartsWith_iff (p l : List Char) :
    listStartsWith p l = true ↔ p <+: l := by
  induction p generalizing l with
  | nil => simp [listStartsWith]
  | cons c cs ih =>
    cases l with
    | nil => simp [listStartsWith]
    | cons x xs =>
      simp [listStartsWith, List.cons_prefix_cons, ih]

theorem listContainsSub_iff (p l : List Char) :
    listContainsSub p l = true ↔ p <:+: l := by
  induction l with
  | nil =>
    simp [listContainsSub, listStartsWith_iff, List.prefix_nil, List.infix_nil]
  | cons x xs ih =>
    simp [listContainsSub, listStartsWith_iff, List.infix_cons_iff, ih]

/- ## Base58 keys and signatures

Solana `Pubkey::from_str` / `Signature::from_str` decode a base58 string and
require exactly 32 (resp. 64) bytes.  Bitcoin-style base58 is a bijection
between byte strings and their canonical encodings, so a key that parsed
from `s` prints back as `s`; we therefore represent a parsed key by its
base58 string, guarded by an executable validity check that performs the
decode-and-measure step. -/

/-- The base58 alphabet used by bs58 (Bitcoin alphabet). -/
def base58Alphabet : List Char :=
  "123456789ABCDEFGHJKLMNPQRSTUVWXYZabcdefghijkmnopqrstuvwxyz".toList

/-- Value of one base58 digit, none for a character outside the alphabet. -/
def base58CharVal (c : Char) : Option Nat :=
  List.indexOf? c base58Alphabet

/-- Big-endian value of a base58 digit string; none on a bad character. -/
def base58Val (cs : List Char) : Option Nat :=
  cs.foldl
    (fun acc c =>
      match acc, base58CharVal c with
      | some a, some v => some (a * 58 + v)
      | _, _ => none)
    (some 0)

/-- Leading '1' digits encode leading zero bytes. -/
def countLeadingOnes : List Char → Nat
  | [] => 0
  | c :: cs => if c = '1' then countLeadingOnes cs + 1 else 0

/-- Byte length of the minimal big-endian representation of `n`
(fuel-bounded so the kernel can evaluate it). -/
def natByteLenAux : Nat → Nat → Nat
  | 0, _ => 0
  | fuel + 1, n => if n = 0 then 0 else natByteLenAux fuel (n / 256) + 1

/-- Does `s` decode, under bs58, to exactly `len` bytes?  Each base58 digit
carries under 8 bits, so `s.length` is enough fuel for the byte count. -/
def decodeBase58Len (s : String) (len : Nat) : Bool :=
  match base58Val s.toList with
  | none => false
  | some n =>
    countLeadingOnes s.toList + natByteLenAux s.toList.length n == len

/-- A parsed 32-byte public key, carried by its base58 form. -/
structure Pubkey where
  base58 : String
deriving DecidableEq, Repr

/-- Models `Pubkey::from_str` (decode base58, require 32 bytes). -/
def Pubkey.fromStr (s : String) : Option Pubkey :=
  if decodeBase58Len s 32 then some ⟨s⟩ else none

/-- Models `Pubkey::to_string` (canonical base58). -/
def Pubkey.toBase58 (p : Pubkey) : String := p.base58

/-- Models `Signature::from_str` (decode base58, require 64 bytes); only
parse success/failure matters to the program, so the model returns a Bool. -/
def signatureParses (s : String) : Bool :=
  decodeBase58Len s 64

theorem decodeBase58Len_empty_false (len : Nat) (h : 0 < len) :
    decodeBase58Len "" len = false := by
  have he : "".toList = ([] : List Char) := rfl
  simp [decodeBase58Len, base58Val, countLeadingOnes, natByteLenAux, he]
  omega

/- ## RPC transaction data model

`RpcTransactionConfig`, `EncodedConfirmedTransactionWithStatusMeta` and the
parsed-instruction JSON tree, as used by the listener.  `serde_json::Value`
is modelled by a small JSON type with the accessors the code uses. -/

inductive UiTransactionEncoding where
  | jsonParsed
deriving DecidableEq, Repr

inductive CommitmentLevel where
  | confirmed
deriving DecidableEq, Repr

/-- Models solana_client::rpc_config::RpcTransactionConfig. -/
structure RpcTransactionConfig where
  encoding : Option UiTransactionEncoding
  maxSupportedTransactionVersion : Option Nat
  commitment : Option CommitmentLevel
deriving DecidableEq, Repr

/-- Models serde_json::Value to the depth the parser inspects. -/
inductive Json where
  | null
  | str (s : String)
  | num (n : Int)
  | boolVal (b : Bool)
  | arr (xs : List Json)
  | obj (kvs : List (String × Json))

/-- Models `Value::get(key)` on an object (none on non-objects). -/
def Json.get (j : Json) (k : String) : Option Json :=
  match j with
  | .obj kvs => (kvs.find? (fun kv => kv.1 == k)).map (fun kv => kv.2)
  | _ => none

/-- Models `Value::as_str`. -/
def Json.asStr (j : Json) : Option String :=
  match j with
  | .str s => some s
  | _ => none

/-- Models serde's `Value == &str` comparison: true only for an equal
string variant. -/
def Json.eqStr (j : Json) (s : String) : Bool :=
  match j with
  | .str t => t == s
  | _ => false

/-- Models solana_transaction_status::UiParsedInstruction to the depth the
parser matches: the fully parsed variant carries program name, program id
and the parsed JSON payload; everything else is opaque. -/
structure ParsedInstruction where
  program : String
  programId : String
  parsed : Json

inductive UiInstruction where
  | parsed (pi : ParsedInstruction)
  | otherInstruction

inductive UiMessage where
  | parsedMsg (instructions : List UiInstruction)
  | rawMsg

inductive EncodedTransaction where
  | json (message : UiMessage)
  | otherEncoding

/-- Models EncodedConfirmedTransactionWithStatusMeta (the `.transaction`
level and `block_time` are all the code reads). -/
structure Tx where
  transaction : EncodedTransaction
  blockTime : Option Int

/- ## fetch_transaction_with_retry (src/listener_helpers.rs)

The RPC client is an oracle `rpc : Nat → RpcTransactionConfig → Except
String Tx` giving the outcome of the n-th sequential
`get_transaction_with_config` call (the error payload is the Rust error's
display string).  The acquired semaphore permit is RAII-scoped over the
whole body, which the event trace makes explicit. -/

/-- The closure `is_version_error` in fetch_transaction_with_retry. -/
def isVersionError (msg : String) : Bool :=
  strContains msg "Transaction version"
    || strContains msg "not supported by the requesting client"

/-- Attempt 1 config: default (no max_supported_transaction_version). -/
def attemptDefaultCfg : RpcTransactionConfig :=
  { encoding := some .jsonParsed
    maxSupportedTransactionVersion := none
    commitment := some .confirmed }

/-- Attempt 2 config: allow version 0. -/
def attemptV0Cfg : RpcTransactionConfig :=
  { encoding := some .jsonParsed
    maxSupportedTransactionVersion := some 0
    commitment := some .confirmed }

/-- Attempt 3 config: fallback, again no version override (written as a
separate literal in the source, identical to attempt 1's). -/
def attemptNoneCfg : RpcTransactionConfig :=
  { encoding := some .jsonParsed
    maxSupportedTransactionVersion := none
    commitment := some .confirmed }

/-- The retry body of fetch_transaction_with_retry, after the permit is
held: up to three sequential fetches, returning the `Ok(...)` payload of
the Rust function (`some tx` or `none`) together with the list of configs
actually attempted, in order. -/
def fetchAttempts (rpc : Nat → RpcTransactionConfig → Except String Tx) :
    Option Tx × List RpcTransactionConfig :=
  match rpc 0 attemptDefaultCfg with
  | .ok tx => (some tx, [attemptDefaultCfg])
  | .error msg =>
    if isVersionError msg then
      match rpc 1 attemptV0Cfg with
      | .ok tx => (some tx, [attemptDefaultCfg, attemptV0Cfg])
      | .error msg2 =>
        if isVersionError msg2 then
          match rpc 2 attemptNoneCfg with
          | .ok tx => (some tx, [attemptDefaultCfg, attemptV0Cfg, attemptNoneCfg])
          | .error _ => (none, [attemptDefaultCfg, attemptV0Cfg, attemptNoneCfg])
        else (none, [attemptDefaultCfg, attemptV0Cfg])
    else (none, [attemptDefaultCfg])

/-- Observable events of one fetch_transaction_with_retry call. -/
inductive FetchEvent where
  | acquire
  | attempt (cfg : RpcTransactionConfig)
  | release
deriving DecidableEq, Repr

/-- fetch_transaction_with_retry: acquire one permit, run the attempts,
release the permit when the call completes (the Rust `_permit` guard drops
on every return path).  Returns the result and the event trace. -/
def fetch_transaction_with_retry
    (rpc : Nat → RpcTransactionConfig → Except String Tx) :
    Option Tx × List FetchEvent :=
  let r := fetchAttempts rpc
  (r.1, FetchEvent.acquire :: r.2.map FetchEvent.attempt ++ [FetchEvent.release])

/-- Run a fetch-event trace against a semaphore holding `s` permits. -/
def runPermits (s : Nat) : List FetchEvent → Nat
  | [] => s
  | .acquire :: es => runPermits (s - 1) es
  | .release :: es => runPermits (s + 1) es
  | .attempt _ :: es => runPermits s es

/- ## Log classification (src/listeners/pumpfun.rs, process_log) -/

/-- `let is_success = log.logs.iter().any(|l| l.contains("success"))`. -/
def is_success (logs : List String) : Bool :=
  logs.any (fun l => strContains l "success")

/-- `log.logs.iter().any(|l| l.contains("Instruction: Buy"))`. -/
def is_buy (logs : List String) : Bool :=
  logs.any (fun l => strContains l "Instruction: Buy")

/-- `log.logs.iter().any(|l| l.contains("Instruction: Sell"))`. -/
def is_sell (logs : List String) : Bool :=
  logs.any (fun l => strContains l "Instruction: Sell")

/-- The creation-marker disjunction of process_log. -/
def is_create (logs : List String) : Bool :=
  logs.any (fun line =>
    strContains line "InitializeMint"
      || strContains line "InitializeMint2"
      || strContains line "CreateMetadataAccount"
      || strContains line "CreateMetadataAccountV3"
      || strContains line "Instruction: Create"
      || strContains line "master_edition"
      || strContains line "InitializeAccount3")

/-- `l.contains("Instruction: SwapTob") || l.contains("SwapEvent")`. -/
def is_swap (logs : List String) : Bool :=
  logs.any (fun l =>
    strContains l "Instruction: SwapTob" || strContains l "SwapEvent")

/- ## Mint decoding (src/token_helper.rs) -/

/-- `spl_token::ID`, base58. -/
def splTokenId : String := "TokenkegQfeZyiNwAJbNbGKPFXCWuBvf9Ss623VQ5DA"

/-- `spl_token_2022::ID`, base58. -/
def splToken2022Id : String := "TokenzQdBNbLqP5VEhdkAS6EPFLC1PHnBqCXEpPxuEb"

/-- A raw account as returned by `rpc.get_account`: owner program (base58)
and raw data bytes. -/
structure Account where
  owner : String
  data : List Nat
deriving DecidableEq, Repr

inductive MintProgramType where
  | token
  | token2022
deriving DecidableEq, Repr

/-- Decoded mint record (token_helper::MintInfo); authorities are kept as
raw 32-byte key material, the program only tests their presence. -/
structure MintInfo where
  program : MintProgramType
  decimals : Nat
  supply : Nat
  mintAuthority : Option (List Nat)
  freezeAuthority : Option (List Nat)
deriving DecidableEq, Repr

/-- Little-endian read of `len` bytes at offset `off`. -/
def readLE (data : List Nat) (off len : Nat) : Nat :=
  ((data.drop off).take len).foldr (fun b acc => acc * 256 + b) 0

/-- `spl_token` COption<Pubkey> unpacking: 4-byte tag `[0,0,0,0]` is None,
`[1,0,0,0]` is Some of the next 32 bytes, anything else is invalid. -/
def unpackCOptionKey (data : List Nat) (off : Nat) :
    Option (Option (List Nat)) :=
  let tag := (data.drop off).take 4
  if tag = [0, 0, 0, 0] then some none
  else if tag = [1, 0, 0, 0] then some (some ((data.drop (off + 4)).take 32))
  else none

/-- `Mint::unpack` for both spl_token and spl_token_2022 base mints: the
82-byte layout [mint_authority COption; supply u64 LE; decimals u8;
is_initialized u8; freeze_authority COption], requiring the exact length,
valid COption tags, and is_initialized = 1 (0 gives UninitializedAccount,
anything else InvalidAccountData; both are unpack failures here). -/
def unpackMint (data : List Nat) : Option MintInfo :=
  if data.length = 82 then
    match unpackCOptionKey data 0, unpackCOptionKey data 46 with
    | some ma, some fa =>
      if data.getD 45 0 = 1 then
        some
          { program := .token
            decimals := data.getD 44 0
            supply := readLE data 36 8
            mintAuthority := ma
            freezeAuthority := fa }
      else none
    | _, _ => none
  else none

/-- token_helper::load_mint_info.  The `rpc.get_account` outcome is the
oracle argument.  The Rust function returns `anyhow::Result<Option<..>>`
but every branch is `Ok`; the model keeps the Except layer to state that. -/
def load_mint_info (getAccount : Except String Account) :
    Except String (Option MintInfo) :=
  match getAccount with
  | .error _ => .ok none
  | .ok account =>
    if account.owner = splTokenId then
      match unpackMint account.data with
      | some m => .ok (some { m with program := .token })
      | none => .ok none
    else if account.owner = splToken2022Id then
      match unpackMint account.data with
      | some m => .ok (some { m with program := .token2022 })
      | none => .ok none
    else .ok none

/- ## Off-chain metadata (token_helper::fetch_token_info)

The HTTP interaction is an oracle: the outcome of `client.get(url).send()`
and, when a response with success status arrives, the outcome of reading
its body.  The body's serde_json parse result is represented directly by
`Option Json` (serde parsing of the concrete body text is deterministic,
so carrying its result loses nothing the function inspects). -/

structure HttpResp where
  statusSuccess : Bool
  body : Except String (Option Json)

structure HttpWorld where
  send : Except String HttpResp

structure TokenInfo where
  name : String
  symbol : String
deriving DecidableEq, Repr

/-- token_helper::fetch_token_info.  Starts from the sentinels
"Unknown"/"UNK"; the DexScreener block runs (the `name == "Unknown"` guard
is always true at that point), non-Ok send and non-success status are
silently skipped, but reading the body uses `?` and so propagates its
error; a parsed array's first element may override name/symbol. -/
def fetch_token_info (w : HttpWorld) : Except String TokenInfo :=
  let name0 := "Unknown"
  let symbol0 := "UNK"
  match w.send with
  | .error _ => .ok ⟨name0, symbol0⟩
  | .ok resp =>
    if resp.statusSuccess then
      match resp.body with
      | .error e => .error e
      | .ok jsonOpt =>
        match jsonOpt with
        | some (.arr (pair :: _)) =>
          let name :=
            ((pair.get "baseToken").bind (fun t => t.get "name")
              |>.bind Json.asStr).getD name0
          let symbol :=
            ((pair.get "baseToken").bind (fun t => t.get "symbol")
              |>.bind Json.asStr).getD symbol0
          .ok ⟨name, symbol⟩
        | _ => .ok ⟨name0, symbol0⟩
    else .ok ⟨name0, symbol0⟩

/- ## Token record (src/models.rs) -/

inductive TokenSource where
  | pumpfun
  | onChain
deriving DecidableEq, Repr

inductive RiskLevel where
  | low
  | medium
  | high
deriving DecidableEq, Repr

/-- A creation / discovery timestamp; DateTime<Utc> is modelled by its unix
seconds as Int. -/
structure Token where
  mintAddress : String
  createdAt : Int
  discoveredAt : Int
  source : TokenSource
  name : Option String
  symbol : Option String
  decimals : Nat
  totalSupply : Nat
  holderCount : Option Nat
  top10HolderPercentage : Option Nat
  liquiditySol : Option Nat
  liquidityLocked : Option Bool
  lpBurned : Option Bool
  mintAuthorityDisabled : Bool
  freezeAuthorityDisabled : Bool
  raydiumPool : Option Pubkey
  pumpFunBondingCurve : Option Pubkey
  orcaPool : Option String
  meteoraPool : Option String
  fourMemePool : Option String
  basePair : Option String
  bscPair : Option String
  score : Option Int
  riskLevel : Option RiskLevel
deriving DecidableEq, Repr

/- ## Creation parser (src/listeners/pumpfun.rs, parse_pumpfun_creation)

The parser's external effects are collected in a `World` of oracles; its
calls are recorded in an `Action` trace so that short-circuits ("returns
before any fetch") are visible. -/

/-- One entry returned by `get_signatures_for_address` (only the signature
string is read). -/
structure SigInfo where
  signature : String
deriving DecidableEq, Repr

/-- Models rpc_response::RpcLogsResponse. -/
structure RpcLogsResponse where
  signature : String
  logs : List String
deriving DecidableEq, Repr

/-- External calls the listener performs while handling one notification. -/
inductive Action where
  | fetchTx
  | getSignatures (attempt : Nat)
  | sleepMs (n : Nat)
  | getAccount
  | fetchMeta
  | emit (t : Token)
deriving DecidableEq, Repr

/-- Oracles for one pass through process_log / parse_pumpfun_creation.
`txFetchRpc` answers the fetch of the notifying transaction,
`creationFetchRpc` the fetch of the mint's earliest transaction;
`nowTime` is `Utc::now()` at the creation-time fallback and
`discoveredTime` is `Utc::now()` at Token assembly. -/
structure World where
  txFetchRpc : Nat → RpcTransactionConfig → Except String Tx
  getSigs : Nat → Except String (List SigInfo)
  creationFetchRpc : Nat → RpcTransactionConfig → Except String Tx
  getAccount : Except String Account
  http : HttpWorld
  nowTime : Int
  discoveredTime : Int
  processResult : Except String Unit

/-- The native wrapped-SOL placeholder mint address. -/
def wrappedSolMint : String := "So11111111111111111111111111111111111111112"

/-- The mint-extraction loop over parsed instructions (lines 169-189):
first full match breaks with the parsed mint pubkey; an instruction that
matches the program/type tests but has no parsable mint string falls
through and the scan continues. -/
def extract_mint : List UiInstruction → Option Pubkey
  | [] => none
  | ins :: rest =>
    match ins with
    | .parsed pi =>
      if pi.program == "spl-associated-token-account"
          && pi.programId == "ATokenGPvbdGVxr1b2hvZbsiqW5xWH25efTNsLJA8knL"
          && ((pi.parsed.get "type").getD (Json.str "")).eqStr "createIdempotent"
      then
        match pi.parsed.get "info" with
        | some info =>
          match (info.get "mint").bind Json.asStr with
          | some mintStr =>
            match Pubkey.fromStr mintStr with
            | some pk => some pk
            | none => extract_mint rest
          | none => extract_mint rest
        | none => extract_mint rest
      else extract_mint rest
    | .otherInstruction => extract_mint rest

/-- Mint extraction guarded by the transaction encoding (lines 165-191):
only a Json-encoded transaction with a parsed message is scanned. -/
def extractMintFromTx (tx : Tx) : Option Pubkey :=
  match tx.transaction with
  | .json (.parsedMsg instrs) => extract_mint instrs
  | .json .rawMsg => none
  | .otherEncoding => none

/-- The signature-history retry loop (lines 202-219): attempts numbered
from `attempt` with `fuel` iterations left; a non-empty Ok breaks with the
LAST entry of the returned vector, otherwise the loop sleeps 200ms and
retries. -/
def sigLoop (getSigs : Nat → Except String (List SigInfo)) :
    Nat → Nat → Option SigInfo × List Action
  | _, 0 => (none, [])
  | attempt, fuel + 1 =>
    match getSigs attempt with
    | .ok sigs =>
      if sigs.isEmpty then
        let r := sigLoop getSigs (attempt + 1) fuel
        (r.1, Action.getSignatures attempt :: Action.sleepMs 200 :: r.2)
      else (sigs.getLast?, [Action.getSignatures attempt])
    | .error _ =>
      let r := sigLoop getSigs (attempt + 1) fuel
      (r.1, Action.getSignatures attempt :: Action.sleepMs 200 :: r.2)

/-- Creation-time resolution (lines 202-235): run the history loop; with a
signature in hand, parse it (the `?` on `sig_info.signature.parse()`
propagates a parse failure as a hard error), fetch that transaction and
read its block time.  Returns the optional block time. -/
def resolveCreatedAt (getSigs : Nat → Except String (List SigInfo))
    (rpc2 : Nat → RpcTransactionConfig → Except String Tx) :
    Except String (Option Int) × List Action :=
  let r := sigLoop getSigs 1 3
  match r.1 with
  | none => (.ok none, r.2)
  | some si =>
    if signatureParses si.signature then
      match (fetchAttempts rpc2).1 with
      | some tx2 => (.ok tx2.blockTime, r.2 ++ [Action.fetchTx])
      | none => (.ok none, r.2 ++ [Action.fetchTx])
    else
      (.error "failed to parse signature from get_signatures_for_address", r.2)

/-- Token assembly (lines 248-273). -/
def mkToken (mint : Pubkey) (createdAt discoveredAt : Int)
    (ti : TokenInfo) (md : MintInfo) : Token :=
  { mintAddress := mint.toBase58
    createdAt := createdAt
    discoveredAt := discoveredAt
    source := .pumpfun
    name := some ti.name
    symbol := some ti.symbol
    decimals := md.decimals
    totalSupply := md.supply
    holderCount := some 0
    top10HolderPercentage := some 0
    liquiditySol := some 0
    liquidityLocked := some false
    lpBurned := some false
    mintAuthorityDisabled := md.mintAuthority.isNone
    freezeAuthorityDisabled := md.freezeAuthority.isNone
    raydiumPool := none
    pumpFunBondingCurve := none
    orcaPool := none
    meteoraPool := none
    fourMemePool := none
    basePair := none
    bscPair := none
    score := none
    riskLevel := none }

/-- Steps 4-7 of the parser (lines 238-273): load the mint account (its
Result is `?`-unwrapped but never an error), fetch off-chain metadata
(`?` propagates its error), then short-circuit on a missing mint record or
assemble the Token. -/
def parseTail (w : World) (mint : Pubkey) (createdAt : Int)
    (acts : List Action) : Except String (Option Token) × List Action :=
  let acts1 := acts ++ [Action.getAccount]
  match load_mint_info w.getAccount with
  | .error e => (.error e, acts1)
  | .ok mdOpt =>
    let acts2 := acts1 ++ [Action.fetchMeta]
    match fetch_token_info w.http with
    | .error e => (.error e, acts2)
    | .ok ti =>
      match mdOpt with
      | none => (.ok none, acts2)
      | some md =>
        (.ok (some (mkToken mint createdAt w.discoveredTime ti md)), acts2)

/-- parse_pumpfun_creation (lines 144-274).  The notification signature is
parsed with `.context(..)?`, so a malformed signature propagates a hard
error; an unavailable transaction, a missing create-idempotent mint, the
wrapped-SOL placeholder, and a missing mint record each yield `Ok(None)`. -/
def parse_pumpfun_creation (w : World) (log : RpcLogsResponse) :
    Except String (Option Token) × List Action :=
  if signatureParses log.signature then
    match (fetchAttempts w.txFetchRpc).1 with
    | none => (.ok none, [Action.fetchTx])
    | some tx =>
      match extractMintFromTx tx with
      | none => (.ok none, [Action.fetchTx])
      | some mint =>
        if mint.toBase58 = wrappedSolMint then (.ok none, [Action.fetchTx])
        else
          match resolveCreatedAt w.getSigs w.creationFetchRpc with
          | (.error e, as2) => (.error e, Action.fetchTx :: as2)
          | (.ok ct, as2) =>
            parseTail w mint (ct.getD w.nowTime) (Action.fetchTx :: as2)
  else
    (.error "Failed to parse transaction signature for pumfun listener", [])

/-- process_log (lines 90-142): a notification with no "success" line, or
with no creation marker, returns Ok(()) untouched; otherwise the parser
runs and a produced token is handed to the processor (whose error is the
only propagated one).  The buy/sell/swap flags only drive logging. -/
def process_log (w : World) (log : RpcLogsResponse) :
    Except String Unit × List Action :=
  if is_success log.logs then
    if is_create log.logs then
      let r := parse_pumpfun_creation w log
      match r.1 with
      | .error e => (.error e, r.2)
      | .ok none => (.ok (), r.2)
      | .ok (some t) =>
        match w.processResult with
        | .ok _ => (.ok (), r.2 ++ [Action.emit t])
        | .error e => (.error e, r.2 ++ [Action.emit t])
    else (.ok (), [])
  else (.ok (), [])

/- ## Concrete fixtures used by witnesses -/

/-- An RPC stub that reports a version-acceptance mismatch on every call. -/
def rpcVerErr : Nat → RpcTransactionConfig → Except String Tx :=
  fun _ _ =>
    .error "Transaction version (0) is not supported by the requesting client"

/-- A world in which every external call fails or is empty. -/
def quietWorld : World :=
  { txFetchRpc := fun _ _ => .error "connection refused"
    getSigs := fun _ => .ok []
    creationFetchRpc := fun _ _ => .error "connection refused"
    getAccount := .error "connection refused"
    http := ⟨.error "connection refused"⟩
    nowTime := 0
    discoveredTime := 0
    processResult := .ok () }

/-- A 32-one base58 string: 32 zero bytes, a valid non-placeholder mint. -/
def demoMintStr : String := "11111111111111111111111111111111"

/-- A 64-one base58 string: 64 zero bytes, a valid signature. -/
def demoSigStr : String :=
  "1111111111111111111111111111111111111111111111111111111111111111"

/-- A parsed create-idempotent ATA instruction carrying `demoMintStr`. -/
def goodInstr : UiInstruction :=
  .parsed
    { program := "spl-associated-token-account"
      programId := "ATokenGPvbdGVxr1b2hvZbsiqW5xWH25efTNsLJA8knL"
      parsed :=
        .obj
          [("type", .str "createIdempotent"),
           ("info", .obj [("mint", .str demoMintStr)])] }

/-- Like `goodInstr` but with an unparseable mint string, so the scan must
skip it. -/
def badMintInstr : UiInstruction :=
  .parsed
    { program := "spl-associated-token-account"
      programId := "ATokenGPvbdGVxr1b2hvZbsiqW5xWH25efTNsLJA8knL"
      parsed :=
        .obj
          [("type", .str "createIdempotent"),
           ("info", .obj [("mint", .str "not base58 at all")])] }

/-- A parsed transaction whose only instruction is `goodInstr`. -/
def demoTx : Tx :=
  { transaction := .json (.parsedMsg [goodInstr])
    blockTime := some 111 }

/-- A legacy-layout mint account body: no authorities, supply 1000000,
decimals 6, initialized. -/
def legacyMintBytes : List Nat :=
  List.replicate 36 0 ++ [64, 66, 15, 0, 0, 0, 0, 0] ++ [6] ++ [1]
    ++ List.replicate 36 0

/-- A world in which the whole discovery succeeds (with empty signature
history, so creation time falls back to the clock, and the metadata lookup
down, so name/symbol stay sentinels). -/
def happyWorld : World :=
  { txFetchRpc := fun _ _ => .ok demoTx
    getSigs := fun _ => .ok []
    creationFetchRpc := fun _ _ => .error "ignored"
    getAccount := .ok { owner := splTokenId, data := legacyMintBytes }
    http := ⟨.error "metadata service down"⟩
    nowTime := 42
    discoveredTime := 43
    processResult := .ok () }

/-- The notification driving the happy path. -/
def happyLog : RpcLogsResponse :=
  { signature := demoSigStr
    logs := ["Instruction: Create", "Program log: success"] }

/-- The token the happy path assembles. -/
def happyToken : Token :=
  { mintAddress := demoMintStr
    createdAt := 42
    discoveredAt := 43
    source := .pumpfun
    name := some "Unknown"
    symbol := some "UNK"
    decimals := 6
    totalSupply := 1000000
    holderCount := some 0
    top10HolderPercentage := some 0
    liquiditySol := some 0
    liquidityLocked := some false
    lpBurned := some false
    mintAuthorityDisabled := true
    freezeAuthorityDisabled := true
    raydiumPool := none
    pumpFunBondingCurve := none
    orcaPool := none
    meteoraPool := none
    fourMemePool := none
    basePair := none
    bscPair := none
    score := none
    riskLevel := none }

/-- The external calls of the happy path, in order. -/
def happyActs : List Action :=
  [Action.fetchTx,
   Action.getSignatures 1, Action.sleepMs 200,
   Action.getSignatures 2, Action.sleepMs 200,
   Action.getSignatures 3, Action.sleepMs 200,
   Action.getAccount, Action.fetchMeta]

/- ## Claim theorems -/

/-- C10: the success classification is plain substring containment of
"success" in some log line — `success = true` iff some line has "success"
as a contiguous substring, anywhere, including inside a longer word; in
particular a line containing "unsuccessful" classifies as successful. -/
theorem c10_success_is_plain_substring :
    (∀ logs : List String,
        is_success logs = true ↔
          ∃ l ∈ logs, "success".toList <:+: l.toList) ∧
    is_success ["Transaction was unsuccessful"] = true := by
  constructor
  · intro logs
    simp [is_success, strContains, listContainsSub_iff, List.any_eq_true]
  · rfl

/-- C2: a notification with no success marker is dropped by process_log
with no external call (no fetch, no emission); likewise when no line
matches the create-marker set; and the concrete line set
["Instruction: Create", "Program log: success"] classifies as a successful
creation. -/
theorem c2_classifier_short_circuits :
    (∀ (w : World) (log : RpcLogsResponse),
        is_success log.logs = false → process_log w log = (.ok (), [])) ∧
    (∀ (w : World) (log : RpcLogsResponse),
        is_create log.logs = false → process_log w log = (.ok (), [])) ∧
    (is_create ["Instruction: Create", "Program log: success"] = true ∧
      is_success ["Instruction: Create", "Program log: success"] = true) := by
  refine ⟨?_, ?_, by constructor <;> rfl⟩
  · intro w log h
    simp [process_log, h]
  · intro w log h
    by_cases hs : is_success log.logs <;> simp [process_log, h, hs]

/-- C2 witness: a concrete unsuccessful notification is dropped with no
external calls. -/
theorem c2_witness :
    process_log quietWorld ⟨"sig", ["Program log: ran out of gas"]⟩ =
      (.ok (), []) :=
  c2_classifier_short_circuits.1 quietWorld
    ⟨"sig", ["Program log: ran out of gas"]⟩ (by rfl)

/-- C5: the mint decoder is total over its oracle: it always returns `Ok`;
an account owned by neither token program decodes to "no mint" regardless
of byte content; an account of a known owner whose bytes fail to unpack
also decodes to "no mint". -/
theorem c5_mint_decoder_never_raises :
    (∀ g : Except String Account, ∃ r, load_mint_info g = .ok r) ∧
    (∀ acct : Account, acct.owner ≠ splTokenId →
        acct.owner ≠ splToken2022Id → load_mint_info (.ok acct) = .ok none) ∧
    (∀ acct : Account, unpackMint acct.data = none →
        load_mint_info (.ok acct) = .ok none) := by
  refine ⟨?_, ?_, ?_⟩
  · intro g
    match g with
    | .error e => exact ⟨none, rfl⟩
    | .ok acct =>
      simp only [load_mint_info]
      by_cases h1 : acct.owner = splTokenId
      · simp only [h1, if_pos rfl]
        cases unpackMint acct.data <;> exact ⟨_, rfl⟩
      · simp only [if_neg h1]
        by_cases h2 : acct.owner = splToken2022Id
        · simp only [h2, if_pos rfl]
          cases unpackMint acct.data <;> exact ⟨_, rfl⟩
        · simp only [if_neg h2]
          exact ⟨none, rfl⟩
  · intro acct h1 h2
    simp [load_mint_info, h1, h2]
  · intro acct h
    simp only [load_mint_info]
    by_cases h1 : acct.owner = splTokenId
    · simp [h1, h]
    · by_cases h2 : acct.owner = splToken2022Id <;> simp [h1, h2, h]

/-- C5 witness: an account owned by an unknown program, with arbitrary
non-mint bytes, decodes to "no mint". -/
theorem c5_witness :
    load_mint_info (.ok ⟨"SomeOtherProgram1111111111111111111111111111", [1, 2, 3]⟩) =
      .ok none :=
  c5_mint_decoder_never_raises.2.1
    ⟨"SomeOtherProgram1111111111111111111111111111", [1, 2, 3]⟩
    (by simp [splTokenId]) (by simp [splToken2022Id])

/-- C3 counterexample: for a notification whose signature string is not a
valid signature, the parser does NOT return the "no token" result — it
propagates a hard (context-wrapped) error. -/
theorem c3_counterexample :
    (parse_pumpfun_creation quietWorld ⟨"???", []⟩).1 ≠ .ok none ∧
    (parse_pumpfun_creation quietWorld ⟨"???", []⟩).1 =
      .error "Failed to parse transaction signature for pumfun listener" := by
  have h : (parse_pumpfun_creation quietWorld ⟨"???", []⟩).1 =
      .error "Failed to parse transaction signature for pumfun listener" := rfl
  refine ⟨?_, h⟩
  rw [h]
  intro hc
  cases hc

/-- C3 amended: on a log notification whose signature string does not
parse as a valid transaction signature, the creation parser propagates a
context-wrapped hard error (before performing any external call), rather
than downgrading to a logged `None`. -/
theorem c3_amended_bad_signature_errors (w : World) (log : RpcLogsResponse)
    (h : signatureParses log.signature = false) :
    parse_pumpfun_creation w log =
      (.error "Failed to parse transaction signature for pumfun listener",
        []) := by
  simp [parse_pumpfun_creation, h]

/-- C3 witness: the amended behaviour at a concrete malformed signature. -/
theorem c3_witness :
    parse_pumpfun_creation quietWorld ⟨"???", []⟩ =
      (.error "Failed to parse transaction signature for pumfun listener",
        []) :=
  c3_amended_bad_signature_errors quietWorld ⟨"???", []⟩ (by rfl)

/-- C1: fetch_transaction_with_retry performs at most three sequential
attempts; attempt 1 always runs with the default config; attempt 2 (version
0 accepted) runs iff attempt 1 errored with a version-mismatch message;
attempt 3 (default config again) runs iff attempt 2 also errored with a
version-mismatch message; success at any attempt returns that attempt's
transaction; a non-version error at attempt 1 or 2, or any error at
attempt 3, returns the unavailable result (None). -/
theorem c1_fetch_retry_negotiation
    (rpc : Nat → RpcTransactionConfig → Except String Tx) :
    ((fetchAttempts rpc).2.head? = some attemptDefaultCfg) ∧
    ((fetchAttempts rpc).2.length ≤ 3) ∧
    ((2 ≤ (fetchAttempts rpc).2.length) ↔
      ∃ m, rpc 0 attemptDefaultCfg = .error m ∧ isVersionError m = true) ∧
    (((fetchAttempts rpc).2.length = 3) ↔
      ((∃ m, rpc 0 attemptDefaultCfg = .error m ∧ isVersionError m = true) ∧
        (∃ m, rpc 1 attemptV0Cfg = .error m ∧ isVersionError m = true))) ∧
    ((fetchAttempts rpc).2.get? 1 = some attemptV0Cfg ∨
      (fetchAttempts rpc).2.length < 2) ∧
    ((fetchAttempts rpc).2.get? 2 = some attemptNoneCfg ∨
      (fetchAttempts rpc).2.length < 3) ∧
    (∀ tx, rpc 0 attemptDefaultCfg = .ok tx →
      (fetchAttempts rpc).1 = some tx) ∧
    (∀ m tx, rpc 0 attemptDefaultCfg = .error m → isVersionError m = true →
      rpc 1 attemptV0Cfg = .ok tx → (fetchAttempts rpc).1 = some tx) ∧
    (∀ m m' tx, rpc 0 attemptDefaultCfg = .error m →
      isVersionError m = true → rpc 1 attemptV0Cfg = .error m' →
      isVersionError m' = true → rpc 2 attemptNoneCfg = .ok tx →
      (fetchAttempts rpc).1 = some tx) ∧
    (∀ m, rpc 0 attemptDefaultCfg = .error m → isVersionError m = false →
      (fetchAttempts rpc).1 = none) ∧
    (∀ m m', rpc 0 attemptDefaultCfg = .error m → isVersionError m = true →
      rpc 1 attemptV0Cfg = .error m' → isVersionError m' = false →
      (fetchAttempts rpc).1 = none) ∧
    (∀ m m' m'', rpc 0 attemptDefaultCfg = .error m →
      isVersionError m = true → rpc 1 attemptV0Cfg = .error m' →
      isVersionError m' = true → rpc 2 attemptNoneCfg = .error m'' →
      (fetchAttempts rpc).1 = none) := by
  cases h0 : rpc 0 attemptDefaultCfg with
  | ok tx0 => simp [fetchAttempts, h0]
  | error m0 =>
    cases hv0 : isVersionError m0 with
    | false =>
      simp [fetchAttempts, h0, hv0]
      constructor
      · intro m tx hm hv
        subst hm
        rw [hv0] at hv
        simp at hv
      · intro m m' tx hm hv _ _
        subst hm
        rw [hv0] at hv
        simp at hv
    | true =>
      cases h1 : rpc 1 attemptV0Cfg with
      | ok tx1 => simp [fetchAttempts, h0, hv0, h1]
      | error m1 =>
        cases hv1 : isVersionError m1 with
        | false =>
          simp [fetchAttempts, h0, hv0, h1, hv1]
          intro m m' tx _ _ hm' hv'
          subst hm'
          rw [hv1] at hv'
          simp at hv'
        | true =>
          cases h2 : rpc 2 attemptNoneCfg with
          | ok tx2 => simp [fetchAttempts, h0, hv0, h1, hv1, h2]
          | error m2 => simp [fetchAttempts, h0, hv0, h1, hv1, h2]

/-- C1 witness: against an endpoint that reports a version mismatch on all
three attempts, the result is unavailable after exactly three attempts. -/
theorem c1_witness :
    (fetchAttempts rpcVerErr).1 = none ∧
    (fetchAttempts rpcVerErr).2.length = 3 := by
  have h := c1_fetch_retry_negotiation rpcVerErr
  refine ⟨h.2.2.2.2.2.2.2.2.2.2.2 _ _ _ rfl rfl rfl rfl rfl, ?_⟩
  exact h.2.2.2.1.mpr
    ⟨⟨"Transaction version (0) is not supported by the requesting client",
        rfl, rfl⟩,
      ⟨"Transaction version (0) is not supported by the requesting client",
        rfl, rfl⟩⟩

/-- C8: every fetch_transaction_with_retry call acquires exactly one
permit, before its first fetch attempt, and releases exactly one permit
when the call completes, on every oracle path; running the trace against a
pool with `s` available permits (one being available, as acquisition blocks
until then) leaves the pool at `s` again. -/
theorem c8_permit_roundtrip
    (rpc : Nat → RpcTransactionConfig → Except String Tx) (s : Nat)
    (hs : 0 < s) :
    (fetch_transaction_with_retry rpc).2.head? = some FetchEvent.acquire ∧
    (fetch_transaction_with_retry rpc).2.getLast? = some FetchEvent.release ∧
    (fetch_transaction_with_retry rpc).2.count FetchEvent.acquire = 1 ∧
    (fetch_transaction_with_retry rpc).2.count FetchEvent.release = 1 ∧
    runPermits s (fetch_transaction_with_retry rpc).2 = s := by
  have hrun : ∀ (cfgs : List RpcTransactionConfig) (p : Nat)
      (es : List FetchEvent),
      runPermits p (cfgs.map FetchEvent.attempt ++ es) = runPermits p es := by
    intro cfgs
    induction cfgs with
    | nil => intro p es; rfl
    | cons c cs ih => intro p es; simpa [runPermits] using ih p es
  have hcountA : ∀ cfgs : List RpcTransactionConfig,
      (cfgs.map FetchEvent.attempt).count FetchEvent.acquire = 0 := by
    intro cfgs
    refine List.count_eq_zero.mpr ?_
    simp [List.mem_map]
  have hcountR : ∀ cfgs : List RpcTransactionConfig,
      (cfgs.map FetchEvent.attempt).count FetchEvent.release = 0 := by
    intro cfgs
    refine List.count_eq_zero.mpr ?_
    simp [List.mem_map]
  refine ⟨rfl, ?_, ?_, ?_, ?_⟩
  · show (FetchEvent.acquire ::
        ((fetchAttempts rpc).2.map FetchEvent.attempt ++ [FetchEvent.release])).getLast?
      = some FetchEvent.release
    rw [← List.cons_append, List.getLast?_concat]
  · show (FetchEvent.acquire ::
        ((fetchAttempts rpc).2.map FetchEvent.attempt ++ [FetchEvent.release])).count
        FetchEvent.acquire = 1
    simp [List.count_cons, List.count_append, hcountA]
  · show (FetchEvent.acquire ::
        ((fetchAttempts rpc).2.map FetchEvent.attempt ++ [FetchEvent.release])).count
        FetchEvent.release = 1
    simp [List.count_cons, List.count_append, hcountR]
  · show runPermits s (FetchEvent.acquire ::
        ((fetchAttempts rpc).2.map FetchEvent.attempt ++ [FetchEvent.release]))
      = s
    have : runPermits s (FetchEvent.acquire ::
        ((fetchAttempts rpc).2.map FetchEvent.attempt ++ [FetchEvent.release]))
        = runPermits (s - 1) [FetchEvent.release] := by
      simp [runPermits, hrun]
    rw [this]
    simp [runPermits]
    omega

/-- C8 witness: the permit balance at a concrete pool of one permit, with
an endpoint failing all three attempts. -/
theorem c8_witness :
    (fetch_transaction_with_retry rpcVerErr).2.head? =
        some FetchEvent.acquire ∧
    (fetch_transaction_with_retry rpcVerErr).2.getLast? =
        some FetchEvent.release ∧
    (fetch_transaction_with_retry rpcVerErr).2.count FetchEvent.acquire = 1 ∧
    (fetch_transaction_with_retry rpcVerErr).2.count FetchEvent.release = 1 ∧
    runPermits 1 (fetch_transaction_with_retry rpcVerErr).2 = 1 :=
  c8_permit_roundtrip rpcVerErr 1 (by decide)

/- ## C9: refinement statement of the instruction scan.

`instrMintSpec` is written from the claim's words, not the source: the
candidate mint of one instruction is defined when the instruction is
parsed, its program name is "spl-associated-token-account", its program id
is the associated-token-account program address, its parsed type field is
"createIdempotent", and its info.mint string field parses as a public key. -/

/-- Claim-side test: the parsed payload's "type" field is the string
"createIdempotent". -/
def typeIsCreateIdempotent (j : Json) : Bool :=
  match j.get "type" with
  | some (.str t) => t == "createIdempotent"
  | _ => false

/-- Claim-side accessor: the info.mint string field, if present. -/
def mintField (j : Json) : Option String :=
  (j.get "info").bind (fun info => (info.get "mint").bind Json.asStr)

/-- Claim-side candidate mint of a single instruction. -/
def instrMintSpec (ins : UiInstruction) : Option Pubkey :=
  match ins with
  | .parsed pi =>
    if pi.program == "spl-associated-token-account"
        && pi.programId == "ATokenGPvbdGVxr1b2hvZbsiqW5xWH25efTNsLJA8knL"
        && typeIsCreateIdempotent pi.parsed
    then (mintField pi.parsed).bind Pubkey.fromStr
    else none
  | .otherInstruction => none

theorem eqStr_getD_type (j : Json) :
    ((j.get "type").getD (Json.str "")).eqStr "createIdempotent" =
      typeIsCreateIdempotent j := by
  unfold typeIsCreateIdempotent
  cases h : j.get "type" with
  | none => rfl
  | some x => cases x <;> rfl

/-- C9: the candidate mint is the first parsed instruction satisfying all
four conditions (ATA program name, ATA program id, parsed type
"createIdempotent", and a mint info field that parses as a public key) —
i.e. the scan is `findSome?` of the per-instruction candidate — and an
instruction passing the first three tests whose mint field is missing or
unparseable is skipped, the scan continuing with later instructions. -/
theorem c9_first_full_match_wins :
    (∀ instrs : List UiInstruction,
        extract_mint instrs = instrs.findSome? instrMintSpec) ∧
    (∀ (pi : ParsedInstruction) (rest : List UiInstruction),
        instrMintSpec (.parsed pi) = none →
        extract_mint (UiInstruction.parsed pi :: rest) = extract_mint rest) := by
  have main : ∀ instrs : List UiInstruction,
      extract_mint instrs = instrs.findSome? instrMintSpec := by
    intro instrs
    induction instrs with
    | nil => rfl
    | cons ins rest ih =>
      cases ins with
      | otherInstruction =>
        simp [extract_mint, instrMintSpec, List.findSome?_cons, ih]
      | parsed pi =>
        rw [extract_mint, List.findSome?_cons]
        rw [instrMintSpec]
        rw [eqStr_getD_type]
        cases hc : (pi.program == "spl-associated-token-account"
            && pi.programId == "ATokenGPvbdGVxr1b2hvZbsiqW5xWH25efTNsLJA8knL"
            && typeIsCreateIdempotent pi.parsed) with
        | false => simp [hc, ih]
        | true =>
          simp only [hc, if_true]
          unfold mintField
          cases hi : pi.parsed.get "info" with
          | none => simp [ih]
          | some info =>
            cases hm : (info.get "mint").bind Json.asStr with
            | none => simp [hm, ih]
            | some mintStr =>
              cases hp : Pubkey.fromStr mintStr with
              | none => simp [hm, hp, ih]
              | some pk => simp [hm, hp]
  refine ⟨main, ?_⟩
  intro pi rest h
  rw [main, main, List.findSome?_cons, h]

/-- C9 witness: with a first instruction matching the program tests but
carrying an unparseable mint, the scan skips it and the second
instruction's mint wins. -/
theorem c9_witness :
    extract_mint [badMintInstr, goodInstr] = some ⟨demoMintStr⟩ := by
  rw [c9_first_full_match_wins.1]
  rfl

/- ## C6: the placeholder-mint invariant. -/

theorem Pubkey.fromStr_valid (s : String) (pk : Pubkey)
    (h : Pubkey.fromStr s = some pk) :
    decodeBase58Len pk.base58 32 = true := by
  unfold Pubkey.fromStr at h
  split at h
  · cases h
    assumption
  · cases h

theorem extract_mint_valid (l : List UiInstruction) (pk : Pubkey)
    (h : extract_mint l = some pk) :
    decodeBase58Len pk.base58 32 = true := by
  induction l with
  | nil => simp [extract_mint] at h
  | cons ins rest ih =>
    cases ins with
    | otherInstruction => exact ih (by simpa [extract_mint] using h)
    | parsed pi =>
      rw [extract_mint] at h
      cases hc : (pi.program == "spl-associated-token-account"
          && pi.programId == "ATokenGPvbdGVxr1b2hvZbsiqW5xWH25efTNsLJA8knL"
          && ((pi.parsed.get "type").getD (Json.str "")).eqStr
              "createIdempotent") with
      | false =>
        simp only [hc, Bool.false_eq_true, if_false] at h
        exact ih h
      | true =>
        simp only [hc, if_true] at h
        rcases hi : pi.parsed.get "info" with _ | info
        · simp only [hi] at h
          exact ih h
        · simp only [hi] at h
          rcases hm : (info.get "mint").bind Json.asStr with _ | s
          · simp only [hm] at h
            exact ih h
          · simp only [hm] at h
            rcases hp : Pubkey.fromStr s with _ | pk'
            · simp only [hp] at h
              exact ih h
            · simp only [hp] at h
              cases h
              exact Pubkey.fromStr_valid s pk hp

theorem extractMintFromTx_valid (tx : Tx) (pk : Pubkey)
    (h : extractMintFromTx tx = some pk) :
    decodeBase58Len pk.base58 32 = true := by
  unfold extractMintFromTx at h
  rcases tx with ⟨enc, bt⟩
  cases enc with
  | otherEncoding => cases h
  | json msg =>
    cases msg with
    | rawMsg => cases h
    | parsedMsg instrs => exact extract_mint_valid instrs pk h

theorem valid_base58_ne_empty (pk : Pubkey)
    (h : decodeBase58Len pk.base58 32 = true) : pk.base58 ≠ "" := by
  intro he
  rw [he] at h
  rw [decodeBase58Len_empty_false 32 (by decide)] at h
  cases h

/-- C6: every Token the creation parser produces has a non-empty mint
address that is not the native wrapped-SOL placeholder address; the
placeholder is filtered out (with "no token") before any Token is
constructed. -/
theorem c6_mint_address_invariant (w : World) (log : RpcLogsResponse)
    (t : Token) (acts : List Action)
    (h : parse_pumpfun_creation w log = (.ok (some t), acts)) :
    t.mintAddress ≠ "" ∧ t.mintAddress ≠ wrappedSolMint := by
  by_cases hsig : signatureParses log.signature
  · rw [parse_pumpfun_creation, if_pos hsig] at h
    rcases hf : (fetchAttempts w.txFetchRpc).1 with _ | tx
    · rw [hf] at h
      simp at h
    · simp only [hf] at h
      rcases hm : extractMintFromTx tx with _ | mint
      · simp only [hm] at h
        simp at h
      · simp only [hm] at h
        by_cases hph : mint.toBase58 = wrappedSolMint
        · rw [if_pos hph] at h
          simp at h
        · rw [if_neg hph] at h
          rcases hr : resolveCreatedAt w.getSigs w.creationFetchRpc with ⟨res, as2⟩
          rw [hr] at h
          rcases res with e | ct
          · simp at h
          · rw [show ((Except.ok ct : Except String (Option Int)), as2) = (.ok ct, as2) from rfl] at h
            dsimp only at h
            rw [parseTail] at h
            rcases hl : load_mint_info w.getAccount with e | mdOpt
            · simp only [hl] at h
              simp at h
            · simp only [hl] at h
              rcases hti : fetch_token_info w.http with e | ti
              · simp only [hti] at h
                simp at h
              · simp only [hti] at h
                rcases mdOpt with _ | md
                · simp at h
                · simp only [Prod.mk.injEq, Except.ok.injEq,
                    Option.some.injEq] at h
                  have ht : t = mkToken mint (ct.getD w.nowTime)
                      w.discoveredTime ti md := h.1.symm
                  have hv := extractMintFromTx_valid tx mint hm
                  constructor
                  · rw [ht]
                    show mint.toBase58 ≠ ""
                    exact valid_base58_ne_empty mint hv
                  · rw [ht]
                    show mint.toBase58 ≠ wrappedSolMint
                    exact hph
  · rw [parse_pumpfun_creation, if_neg hsig] at h
    simp at h

/-- C6 witness: the happy-path token's mint address is non-empty and is
not the placeholder. -/
theorem c6_witness :
    happyToken.mintAddress ≠ "" ∧ happyToken.mintAddress ≠ wrappedSolMint :=
  c6_mint_address_invariant happyWorld happyLog happyToken happyActs (by rfl)

/- ## C4: metadata lookup error behaviour. -/

/-- An HTTP oracle whose response arrives with success status but whose
body cannot be read. -/
def badBodyHttp : HttpWorld := ⟨.ok ⟨true, .error "body read failed"⟩⟩

/-- C4 counterexample: when the metadata endpoint answers with a success
status but reading the body fails, fetch_token_info propagates that error
instead of returning the "Unknown"/"UNK" sentinels — so the lookup is not
error-free for every failure. -/
theorem c4_counterexample :
    fetch_token_info badBodyHttp = .error "body read failed" ∧
    fetch_token_info badBodyHttp ≠ .ok ⟨"Unknown", "UNK"⟩ := by
  have h : fetch_token_info badBodyHttp = .error "body read failed" := rfl
  refine ⟨h, ?_⟩
  rw [h]
  intro hc
  cases hc

/-- C4 amended: the metadata lookup returns the sentinels name="Unknown",
symbol="UNK" when the request fails, when the response status is not a
success, or when the body parses to no usable JSON — and its only error
path is a failure to read the body of a success-status response, which is
propagated. -/
theorem c4_amended_metadata_sentinels (w : HttpWorld) :
    (∀ e, w.send = .error e →
      fetch_token_info w = .ok ⟨"Unknown", "UNK"⟩) ∧
    (∀ resp, w.send = .ok resp → resp.statusSuccess = false →
      fetch_token_info w = .ok ⟨"Unknown", "UNK"⟩) ∧
    (∀ resp, w.send = .ok resp → resp.statusSuccess = true →
      resp.body = .ok none →
      fetch_token_info w = .ok ⟨"Unknown", "UNK"⟩) ∧
    (∀ e, fetch_token_info w = .error e →
      ∃ resp, w.send = .ok resp ∧ resp.statusSuccess = true ∧
        resp.body = .error e) := by
  refine ⟨?_, ?_, ?_, ?_⟩
  · intro e he
    simp [fetch_token_info, he]
  · intro resp hr hs
    simp [fetch_token_info, hr, hs]
  · intro resp hr hs hb
    simp [fetch_token_info, hr, hs, hb]
  · intro e he
    rcases hr : w.send with e' | resp
    · rw [fetch_token_info, hr] at he
      cases he
    · rw [fetch_token_info, hr] at he
      dsimp only at he
      cases hs : resp.statusSuccess with
      | false =>
        rw [hs] at he
        simp at he
      | true =>
        rw [hs] at he
        simp only [if_true] at he
        rcases hb : resp.body with eb | jsonOpt
        · rw [hb] at he
          cases he
          exact ⟨resp, rfl, hs, hb⟩
        · rw [hb] at he
          dsimp only at he
          split at he <;> cases he

/-- C4 witness: the amended sentinel behaviour at a concrete failed
request. -/
theorem c4_witness :
    fetch_token_info ⟨.error "connection refused"⟩ =
      .ok ⟨"Unknown", "UNK"⟩ :=
  (c4_amended_metadata_sentinels ⟨.error "connection refused"⟩).1
    "connection refused" rfl

/- ## C7: creation-time resolution. -/

/-- Did one signature-history attempt fail (error or empty)? -/
def sigFail (r : Except String (List SigInfo)) : Bool :=
  match r with
  | .ok sigs => sigs.isEmpty
  | .error _ => true

theorem sigLoop13_cases (g : Nat → Except String (List SigInfo)) :
    (∃ sigs, g 1 = .ok sigs ∧ sigs.isEmpty = false ∧
      sigLoop g 1 3 = (sigs.getLast?, [Action.getSignatures 1])) ∨
    (sigFail (g 1) = true ∧ ∃ sigs, g 2 = .ok sigs ∧ sigs.isEmpty = false ∧
      sigLoop g 1 3 = (sigs.getLast?,
        [Action.getSignatures 1, Action.sleepMs 200,
         Action.getSignatures 2])) ∨
    (sigFail (g 1) = true ∧ sigFail (g 2) = true ∧
      ∃ sigs, g 3 = .ok sigs ∧ sigs.isEmpty = false ∧
      sigLoop g 1 3 = (sigs.getLast?,
        [Action.getSignatures 1, Action.sleepMs 200,
         Action.getSignatures 2, Action.sleepMs 200,
         Action.getSignatures 3])) ∨
    (sigFail (g 1) = true ∧ sigFail (g 2) = true ∧ sigFail (g 3) = true ∧
      sigLoop g 1 3 = (none,
        [Action.getSignatures 1, Action.sleepMs 200,
         Action.getSignatures 2, Action.sleepMs 200,
         Action.getSignatures 3, Action.sleepMs 200])) := by
  rcases h1 : g 1 with e1 | sigs1
  · rcases h2 : g 2 with e2 | sigs2
    · rcases h3 : g 3 with e3 | sigs3
      · exact Or.inr (Or.inr (Or.inr
          ⟨by simp [sigFail, h1], by simp [sigFail, h2], by simp [sigFail, h3],
            by simp [sigLoop, h1, h2, h3]⟩))
      · cases hb3 : sigs3.isEmpty with
        | true =>
          exact Or.inr (Or.inr (Or.inr
            ⟨by simp [sigFail, h1], by simp [sigFail, h2],
              by simp [sigFail, h3, hb3],
              by simp [sigLoop, h1, h2, h3, hb3]⟩))
        | false =>
          exact Or.inr (Or.inr (Or.inl
            ⟨by simp [sigFail, h1], by simp [sigFail, h2],
              sigs3, rfl, hb3, by simp [sigLoop, h1, h2, h3, hb3]⟩))
    · cases hb2 : sigs2.isEmpty with
      | true =>
        rcases h3 : g 3 with e3 | sigs3
        · exact Or.inr (Or.inr (Or.inr
            ⟨by simp [sigFail, h1], by simp [sigFail, h2, hb2],
              by simp [sigFail, h3], by simp [sigLoop, h1, h2, h3, hb2]⟩))
        · cases hb3 : sigs3.isEmpty with
          | true =>
            exact Or.inr (Or.inr (Or.inr
              ⟨by simp [sigFail, h1], by simp [sigFail, h2, hb2],
                by simp [sigFail, h3, hb3],
                by simp [sigLoop, h1, h2, h3, hb2, hb3]⟩))
          | false =>
            exact Or.inr (Or.inr (Or.inl
              ⟨by simp [sigFail, h1], by simp [sigFail, h2, hb2],
                sigs3, rfl, hb3, by simp [sigLoop, h1, h2, h3, hb2, hb3]⟩))
      | false =>
        exact Or.inr (Or.inl
          ⟨by simp [sigFail, h1], sigs2, rfl, hb2,
            by simp [sigLoop, h1, h2, hb2]⟩)
  · cases hb1 : sigs1.isEmpty with
    | true =>
      rcases h2 : g 2 with e2 | sigs2
      · rcases h3 : g 3 with e3 | sigs3
        · exact Or.inr (Or.inr (Or.inr
            ⟨by simp [sigFail, h1, hb1], by simp [sigFail, h2],
              by simp [sigFail, h3], by simp [sigLoop, h1, h2, h3, hb1]⟩))
        · cases hb3 : sigs3.isEmpty with
          | true =>
            exact Or.inr (Or.inr (Or.inr
              ⟨by simp [sigFail, h1, hb1], by simp [sigFail, h2],
                by simp [sigFail, h3, hb3],
                by simp [sigLoop, h1, h2, h3, hb1, hb3]⟩))
          | false =>
            exact Or.inr (Or.inr (Or.inl
              ⟨by simp [sigFail, h1, hb1], by simp [sigFail, h2],
                sigs3, rfl, hb3, by simp [sigLoop, h1, h2, h3, hb1, hb3]⟩))
      · cases hb2 : sigs2.isEmpty with
        | true =>
          rcases h3 : g 3 with e3 | sigs3
          · exact Or.inr (Or.inr (Or.inr
              ⟨by simp [sigFail, h1, hb1], by simp [sigFail, h2, hb2],
                by simp [sigFail, h3], by simp [sigLoop, h1, h2, h3, hb1, hb2]⟩))
          · cases hb3 : sigs3.isEmpty with
            | true =>
              exact Or.inr (Or.inr (Or.inr
                ⟨by simp [sigFail, h1, hb1], by simp [sigFail, h2, hb2],
                  by simp [sigFail, h3, hb3],
                  by simp [sigLoop, h1, h2, h3, hb1, hb2, hb3]⟩))
            | false =>
              exact Or.inr (Or.inr (Or.inl
                ⟨by simp [sigFail, h1, hb1], by simp [sigFail, h2, hb2],
                  sigs3, rfl, hb3,
                  by simp [sigLoop, h1, h2, h3, hb1, hb2, hb3]⟩))
        | false =>
          exact Or.inr (Or.inl
            ⟨by simp [sigFail, h1, hb1], sigs2, rfl, hb2,
              by simp [sigLoop, h1, h2, hb1, hb2]⟩)
    | false =>
      exact Or.inl ⟨sigs1, rfl, hb1, by simp [sigLoop, h1, hb1]⟩

/-- A world identical to the happy path except that the signature history
returns an entry whose signature string is not base58. -/
def badHistoryWorld : World :=
  { happyWorld with getSigs := fun _ => .ok [⟨"!!!"⟩] }

/-- C7 counterexample: when the signature-history entry's signature string
fails to parse, the parser propagates a hard error — the creation-time
path does NOT fall back to the wall clock and discovery does NOT proceed. -/
theorem c7_counterexample :
    (parse_pumpfun_creation badHistoryWorld happyLog).1 =
      .error "failed to parse signature from get_signatures_for_address" ∧
    (parse_pumpfun_creation badHistoryWorld happyLog).1 ≠
      .ok (some happyToken) := by
  have h : (parse_pumpfun_creation badHistoryWorld happyLog).1 =
      .error "failed to parse signature from get_signatures_for_address" :=
    rfl
  refine ⟨h, ?_⟩
  rw [h]
  intro hc
  cases hc

/-- C7 amended: creation-time resolution queries the signature history up
to 3 attempts, 200ms apart; it takes the oldest (last) signature of a
non-empty response; when that signature parses, it fetches that
transaction and uses its block time; its only hard error is an unparseable
history signature (which propagates); in every non-error case discovery
proceeds into mint decoding, the creation time being the resolved block
time or, when absent, the current wall clock. -/
theorem c7_amended_creation_time (w : World) (log : RpcLogsResponse) :
    ((sigLoop w.getSigs 1 3).2 = [Action.getSignatures 1] ∨
      (sigLoop w.getSigs 1 3).2 =
        [Action.getSignatures 1, Action.sleepMs 200,
         Action.getSignatures 2] ∨
      (sigLoop w.getSigs 1 3).2 =
        [Action.getSignatures 1, Action.sleepMs 200,
         Action.getSignatures 2, Action.sleepMs 200,
         Action.getSignatures 3] ∨
      (sigLoop w.getSigs 1 3).2 =
        [Action.getSignatures 1, Action.sleepMs 200,
         Action.getSignatures 2, Action.sleepMs 200,
         Action.getSignatures 3, Action.sleepMs 200]) ∧
    (∀ si, (sigLoop w.getSigs 1 3).1 = some si →
      ∃ k sigs, 1 ≤ k ∧ k ≤ 3 ∧ w.getSigs k = .ok sigs ∧
        sigs.getLast? = some si) ∧
    (∀ si tx2, (sigLoop w.getSigs 1 3).1 = some si →
      signatureParses si.signature = true →
      (fetchAttempts w.creationFetchRpc).1 = some tx2 →
      resolveCreatedAt w.getSigs w.creationFetchRpc =
        (.ok tx2.blockTime, (sigLoop w.getSigs 1 3).2 ++ [Action.fetchTx])) ∧
    (∀ e as, resolveCreatedAt w.getSigs w.creationFetchRpc = (.error e, as) →
      ∃ si, (sigLoop w.getSigs 1 3).1 = some si ∧
        signatureParses si.signature = false) ∧
    (∀ tx mint ct as2, signatureParses log.signature = true →
      (fetchAttempts w.txFetchRpc).1 = some tx →
      extractMintFromTx tx = some mint →
      mint.toBase58 ≠ wrappedSolMint →
      resolveCreatedAt w.getSigs w.creationFetchRpc = (.ok ct, as2) →
      parse_pumpfun_creation w log =
        parseTail w mint (ct.getD w.nowTime) (Action.fetchTx :: as2)) := by
  refine ⟨?_, ?_, ?_, ?_, ?_⟩
  · rcases sigLoop13_cases w.getSigs with
      ⟨s1, h1, hb1, heq⟩ | ⟨f1, s2, h2, hb2, heq⟩ |
      ⟨f1, f2, s3, h3, hb3, heq⟩ | ⟨f1, f2, f3, heq⟩ <;> rw [heq] <;> simp
  · intro si hsi
    rcases sigLoop13_cases w.getSigs with
      ⟨s1, h1, hb1, heq⟩ | ⟨f1, s2, h2, hb2, heq⟩ |
      ⟨f1, f2, s3, h3, hb3, heq⟩ | ⟨f1, f2, f3, heq⟩
    · rw [heq] at hsi
      exact ⟨1, s1, by omega, by omega, h1, hsi⟩
    · rw [heq] at hsi
      exact ⟨2, s2, by omega, by omega, h2, hsi⟩
    · rw [heq] at hsi
      exact ⟨3, s3, by omega, by omega, h3, hsi⟩
    · rw [heq] at hsi
      cases hsi
  · intro si tx2 hsi hparse hfetch
    rw [resolveCreatedAt]
    rw [hsi]
    dsimp only
    rw [hparse, hfetch]
    rfl
  · intro e as hres
    rw [resolveCreatedAt] at hres
    rcases hsi : (sigLoop w.getSigs 1 3).1 with _ | si
    · rw [hsi] at hres
      cases hres
    · rw [hsi] at hres
      dsimp only at hres
      cases hparse : signatureParses si.signature with
      | true =>
        rw [hparse] at hres
        simp only [if_true] at hres
        rcases hf : (fetchAttempts w.creationFetchRpc).1 with _ | tx2 <;>
          rw [hf] at hres <;> cases hres
      | false =>
        exact ⟨si, rfl, hparse⟩
  · intro tx mint ct as2 hsig hf hm hph hres
    rw [parse_pumpfun_creation, if_pos hsig]
    simp only [hf]
    simp only [hm]
    rw [if_neg hph, hres]

/-- C7 witness: on the happy path (history empty on all three attempts),
discovery proceeds with the wall clock as creation time. -/
theorem c7_witness :
    parse_pumpfun_creation happyWorld happyLog =
      parseTail happyWorld ⟨demoMintStr⟩ 42
        (Action.fetchTx ::
          [Action.getSignatures 1, Action.sleepMs 200,
           Action.getSignatures 2, Action.sleepMs 200,
           Action.getSignatures 3, Action.sleepMs 200]) :=
  (c7_amended_creation_time happyWorld happyLog).2.2.2.2 demoTx
    ⟨demoMintStr⟩ none _ rfl rfl rfl (by decide) rfl

end PumpFun
